import Mathlib

/-!
Verification of the rdp2tcp server tunnel manager (src/server/tunnel.c).

The development shallowly embeds the registry, id allocation, the address
codec, the answer construction of `host_bind` / `host_connect` /
`tunnel_connect_event`, `tunnel_write`, and the socket branch of
`tunnel_event`.  Machine `unsigned char` arithmetic is modelled as `Nat`
with explicit `% 256`; fallible external calls (socket API, `calloc`,
`channel_write`) are modelled as explicit boolean / `Except` outcome
parameters.
-/

set_option maxRecDepth 10000

/-- Membership test on the registry of live tunnel ids.  Mirrors
`tunnel_lookup` (tunnel.c lines 37-48), which walks the `all_tunnels`
list comparing the `id` field; here the registry is projected to the
list of live ids and the result to whether a tunnel was found. -/
def tunnel_lookup : List Nat → Nat → Bool
  | [], _ => false
  | t :: r, i => if t = i then true else tunnel_lookup r i

/-- The scan loop of `tunnel_generate_id` (tunnel.c lines 73-78): starting
at candidate `tid`, try up to `fuel` successive candidates mod 256,
returning the first one not present in the registry.  The C loop
`for (tid=last_tid+1; tid!=last_tid; ++tid)` visits exactly 255
candidates before `tid` wraps back to `last_tid`. -/
def scanFrom (reg : List Nat) : Nat → Nat → Option Nat
  | _, 0 => none
  | tid, fuel + 1 =>
    if tunnel_lookup reg tid then scanFrom reg ((tid + 1) % 256) fuel else some tid

/-- `tunnel_generate_id` (tunnel.c lines 68-81).  Returns the generated id
together with the new value of the `static unsigned char last_tid`:
on success (a free candidate was found) `last_tid` is set to the found
id; on fall-through the function returns `0xff` and `last_tid` is
unchanged. -/
def tunnel_generate_id (reg : List Nat) (last : Nat) : Nat × Nat :=
  match scanFrom reg ((last + 1) % 256) 255 with
  | some t => (t, t)
  | none => (255, last)

/-- State of the id allocator: the ids of live tunnels (`all_tunnels`
projected to ids) and the persistent `last_tid`. -/
structure AllocSt where
  reg : List Nat
  last : Nat
deriving DecidableEq

/-- One server-side allocation, as performed by `tunnel_accept_event`
(tunnel.c lines 395-422): call `tunnel_generate_id`; a `0xff` result is
treated as exhaustion and no tunnel is created, otherwise the new id
enters the registry.  In both cases `last_tid` is whatever the call
left in the static. -/
def allocOnce (s : AllocSt) : AllocSt :=
  let r := tunnel_generate_id s.reg s.last
  if r.1 = 255 then { reg := s.reg, last := r.2 }
  else { reg := r.1 :: s.reg, last := r.2 }

/-- Closing the tunnel with id `i` (`tunnel_close`, tunnel.c lines 311-332):
the tunnel is unlinked from `all_tunnels`. -/
def closeId (s : AllocSt) (i : Nat) : AllocSt :=
  { reg := s.reg.erase i, last := s.last }

/-- An operation on the allocator state: a server-side id allocation
(driven by an accept event) or the close of a live tunnel. -/
inductive AllocOp
  | alloc
  | close (i : Nat)
deriving DecidableEq

def allocStep (s : AllocSt) : AllocOp → AllocSt
  | .alloc => allocOnce s
  | .close i => closeId s i

/-- Initial allocator state: no tunnels, `static unsigned char last_tid = 0xff`. -/
def allocInit : AllocSt := { reg := [], last := 255 }

def runAllocFrom (s : AllocSt) (ops : List AllocOp) : AllocSt :=
  ops.foldl allocStep s

/-- Run a sequence of allocations and closes from the initial state. -/
def runAlloc (ops : List AllocOp) : AllocSt :=
  runAllocFrom allocInit ops

/-- Repeated allocation without closes. -/
def allocN : Nat → AllocSt → AllocSt
  | 0, s => s
  | n + 1, s => allocN n (allocOnce s)

/-- The ids that are still free (the allocator works mod 256). -/
def freeIds (s : AllocSt) : Finset Nat :=
  (Finset.range 256).filter (fun i => i ∉ s.reg)

/-- The scan order of `tunnel_generate_id` starting after `last`:
`(last+1) % 256, (last+2) % 256, …, (last+255) % 256`. -/
def scanSeq (last : Nat) : List Nat :=
  (List.range 255).map (fun i => (last + 1 + i) % 256)

/-- A live tunnel, projected to the fields the registry claims are about:
its immutable one-byte `id` and a model-level creation `serial` used to
talk about object identity across states (the C code identifies a
tunnel by its heap pointer). -/
structure Tunnel where
  serial : Nat
  id : Nat
deriving DecidableEq

/-- Registry state: the `all_tunnels` list, the next unused creation
serial, and the allocator's `last_tid`. -/
structure RegSt where
  tunnels : List Tunnel
  nextSerial : Nat
  last : Nat
deriving DecidableEq

/-- The registry operations of the claim: `tunnel_create` with a
controller-supplied id (`ok` abstracts the success of the endpoint
driver, tunnel.c lines 284-306), `tunnel_accept_event` (lines 377-431,
with the outcomes of `net_accept`, `calloc`, `event_add_tunnel` and
`channel_write` as booleans and `lserial` the serial of the listening
tunnel), and `tunnel_close` of one specific tunnel (lines 311-332). -/
inductive RegOp
  | create (i : Nat) (ok : Bool)
  | accept (lserial : Nat) (acceptOk cliAllocOk addOk chanOk : Bool)
  | closeT (serial : Nat)
deriving DecidableEq

def regStep (s : RegSt) : RegOp → RegSt
  | .create i ok =>
      if ok then
        { tunnels := s.tunnels ++ [{ serial := s.nextSerial, id := i }],
          nextSerial := s.nextSerial + 1, last := s.last }
      else s
  | .accept lserial acceptOk cliAllocOk addOk chanOk =>
      if acceptOk then
        let r := tunnel_generate_id (s.tunnels.map Tunnel.id) s.last
        if r.1 = 255 then { s with last := r.2 }
        else if cliAllocOk = false then { s with last := r.2 }
        else if addOk = false then { s with last := r.2 }
        else
          let grown := s.tunnels ++ [{ serial := s.nextSerial, id := r.1 }]
          if chanOk then
            { tunnels := grown, nextSerial := s.nextSerial + 1, last := r.2 }
          else
            { tunnels := grown.eraseP (fun t => t.serial == lserial),
              nextSerial := s.nextSerial + 1, last := r.2 }
      else s
  | .closeT serial =>
      { s with tunnels := s.tunnels.eraseP (fun t => t.serial == serial) }

def regInit : RegSt := { tunnels := [], nextSerial := 0, last := 255 }

def runRegFrom (s : RegSt) (ops : List RegOp) : RegSt :=
  ops.foldl regStep s

def runReg (ops : List RegOp) : RegSt :=
  runRegFrom regInit ops

/-- A sequence of registry operations is well-driven when every
successful `tunnel_create` uses a controller id that is not currently
live (the C code performs no duplicate check of its own). -/
def goodOps : RegSt → List RegOp → Bool
  | _, [] => true
  | s, op :: rest =>
      (match op with
        | RegOp.create i ok => !ok || !(tunnel_lookup (s.tunnels.map Tunnel.id) i)
        | _ => true) && goodOps (regStep s op) rest

/-- Basic invariant of the registry model: creation serials are unique
and below `nextSerial`. -/
def RegInv (s : RegSt) : Prop :=
  (s.tunnels.map Tunnel.serial).Nodup ∧ ∀ t ∈ s.tunnels, t.serial < s.nextSerial

/-- Error taxonomy of the wire protocol.  The numeric codes are not in
src/ (they live in rdp2tcp.h); modelled from the spec: the error table
of spec section 7 (success 0, generic 1, forbidden 2, conn-refused 3,
not-available 4, resolve 5). -/
def R2TERR_SUCCESS : Nat := 0

def R2TERR_GENERIC : Nat := 1

def R2TERR_FORBIDDEN : Nat := 2

def R2TERR_CONNREFUSED : Nat := 3

def R2TERR_NOTAVAIL : Nat := 4

def R2TERR_RESOLVE : Nat := 5

/-- Address family tags on the wire.  Modelled from the spec: spec
section 6, "Address family codes: ipv4 = 1, ipv6 = 2" (the numeric
values of TUNAF_IPV4/TUNAF_IPV6 live in rdp2tcp.h, not in src/). -/
def TUNAF_IPV4 : Nat := 1

def TUNAF_IPV6 : Nat := 2

/-- Winsock error codes tested by `wsa_to_r2t_error`; the numeric values
are the standard Windows SDK constants (not part of the repository). -/
def WSAEACCES : Nat := 10013

def WSAECONNREFUSED : Nat := 10061

def WSAEADDRNOTAVAIL : Nat := 10049

def WSAHOST_NOT_FOUND : Nat := 11001

/-- `wsa_to_r2t_error` (tunnel.c lines 50-60): the fixed table from OS
error codes to the wire error taxonomy; every unlisted code maps to
the generic error. -/
def wsa_to_r2t_error (err : Nat) : Nat :=
  if err = WSAEACCES then R2TERR_FORBIDDEN
  else if err = WSAECONNREFUSED then R2TERR_CONNREFUSED
  else if err = WSAEADDRNOTAVAIL then R2TERR_NOTAVAIL
  else if err = WSAHOST_NOT_FOUND then R2TERR_RESOLVE
  else R2TERR_GENERIC

/-- A resolved socket address: family, port (host-order number below
65536) and raw address bytes (4 for ipv4, 16 for ipv6). -/
inductive NetAddr
  | ip4 (port : Nat) (addr : List Nat)
  | ip6 (port : Nat) (addr : List Nat)
deriving DecidableEq

/-- The two bytes of a 16-bit port in network order (the C code copies
`sin_port`, which is stored in network byte order, into the `u16`
wire field). -/
def portBytes (p : Nat) : List Nat :=
  [p / 256 % 256, p % 256]

/-- `netaddr_to_connans` (tunnel.c lines 83-105), flattened to the wire
bytes of the answer: error byte 0, family tag, port, then the raw
address bytes (`memcpy` of 4 or 16 bytes).  The C function returns
`msg_len` 8 or 20, which here is the length of the byte list. -/
def netaddr_to_connans : NetAddr → List Nat
  | NetAddr.ip4 p a => R2TERR_SUCCESS :: TUNAF_IPV4 :: (portBytes p ++ a.take 4)
  | NetAddr.ip6 p a => R2TERR_SUCCESS :: TUNAF_IPV6 :: (portBytes p ++ a.take 16)

/-- Which endpoint driver `tunnel_create` hands the request to
(tunnel.c lines 288-297): `host_connect` or `host_bind` for
`port > 0` depending on `bind_socket`, `process_start` for
`port == 0`. -/
inductive EndpointDriver
  | hostConnect
  | hostBind
  | processStart
deriving DecidableEq

def tunnel_create_driver (port : Nat) (bind_socket : Bool) : EndpointDriver :=
  if 0 < port then
    (if bind_socket then EndpointDriver.hostBind else EndpointDriver.hostConnect)
  else EndpointDriver.processStart

/-- The answer payload written by `host_bind` (tunnel.c lines 202-246).
`netServer` is the outcome of `net_server` (`Except.error` carries the
OS error code, `Except.ok` the bound local address); `addOk` is the
success of `event_add_tunnel`.  On bind failure only the error byte is
sent (`ans_len` stays 1); on bind success `ans_len` is set to the full
codec length and is not reset when `event_add_tunnel` then fails —
only the error byte of the already-encoded answer is overwritten. -/
def host_bind_answer (netServer : Except Nat NetAddr) (addOk : Bool) : List Nat :=
  match netServer with
  | Except.error e => [wsa_to_r2t_error e]
  | Except.ok addr =>
      if addOk then netaddr_to_connans addr
      else R2TERR_GENERIC :: (netaddr_to_connans addr).drop 1

/-- The one-byte failure answer written by `host_connect` when
`net_client` or `event_add_tunnel` fails (tunnel.c lines 194-195). -/
def host_connect_fail_answer (e : Nat) : List Nat :=
  [wsa_to_r2t_error e]

/-- A record emitted on the shared virtual channel. -/
inductive ChanRec
  | conn (id : Nat) (payload : List Nat)
  | rconn (id : Nat) (payload : List Nat)
  | data (id : Nat) (payload : List Nat)
  | closeRec (id : Nat)
deriving DecidableEq

/-- Result of `tunnel_connect_event` (tunnel.c lines 125-164): the answer
payload, whether the pending `wio` bytes were flushed
(`tunnel_socksend_event` invoked because `iobuf_datalen` was nonzero),
whether `tun->connected` was set, the channel records written, and the
return value. -/
structure ConnectEventResult where
  answer : List Nat
  drained : Bool
  connectedAfter : Bool
  records : List ChanRec
  ret : Int
deriving DecidableEq

/-- `tunnel_connect_event` (tunnel.c lines 125-164).  `err` is the
connect error reported by the event, `watchOk` the success of
`net_update_watch`, `wio` the pending output buffer, `sendOk` the
success of the flushing `tunnel_socksend_event`, `addr` the connected
peer address and `chanOk` the success of `channel_write`. -/
def tunnel_connect_event_ans (err : Nat) (watchOk : Bool) (wio : List Nat)
    (sendOk : Bool) (addr : NetAddr) : List Nat :=
  if err = 0 then
    if watchOk then
      if wio ≠ [] ∧ sendOk = false then [R2TERR_GENERIC]
      else netaddr_to_connans addr
    else [R2TERR_GENERIC]
  else [wsa_to_r2t_error err]

def tunnel_connect_event_model (selfId : Nat) (err : Nat) (watchOk : Bool)
    (wio : List Nat) (sendOk : Bool) (addr : NetAddr) (chanOk : Bool) :
    ConnectEventResult :=
  { answer := tunnel_connect_event_ans err watchOk wio sendOk addr
    drained := decide (err = 0) && watchOk && !wio.isEmpty
    connectedAfter := decide (err = 0)
    records := if chanOk then
        [ChanRec.conn selfId (tunnel_connect_event_ans err watchOk wio sendOk addr)]
      else []
    ret := if chanOk ∧ (tunnel_connect_event_ans err watchOk wio sendOk addr).head?
          = some R2TERR_SUCCESS then 0
      else -1 }

/-- Outcome of one per-tunnel event handler: its return value, the
channel records it wrote, and whether it tore the tunnel itself down. -/
structure EventOutcome where
  ret : Int
  records : List ChanRec
  closedSelf : Bool
deriving DecidableEq

/-- `tunnel_accept_event` (tunnel.c lines 377-431).  `tid` is the id
produced by `tunnel_generate_id` from the global registry; allocation
failure (`0xff`), `calloc` failure and `event_add_tunnel` failure are
soft errors that drop the accepted socket; on success the reverse
connect record carries the new id followed by the client address
bytes (the cast overlays `rid` on the error byte of the codec
output); if `channel_write` fails the listening tunnel itself is
closed. -/
def tunnel_accept_event_model (selfId : Nat) (acceptOk : Bool) (tid : Nat)
    (cliAllocOk addOk chanOk : Bool) (cliAddr : NetAddr) : EventOutcome :=
  if acceptOk = false then { ret := -1, records := [], closedSelf := false }
  else if tid = 255 then { ret := 0, records := [], closedSelf := false }
  else if cliAllocOk = false then { ret := 0, records := [], closedSelf := false }
  else if addOk = false then { ret := 0, records := [], closedSelf := false }
  else if chanOk then
    { ret := 0,
      records := [ChanRec.rconn selfId (tid :: (netaddr_to_connans cliAddr).drop 1)],
      closedSelf := false }
  else { ret := 0, records := [], closedSelf := true }

/-- `tunnel_sockrecv_event` (tunnel.c lines 334-356): a failed `net_read`
returns an error without touching the channel; a nonzero read hands
the `rio` bytes to `channel_forward`, whose failure is again an
error return. -/
def tunnel_sockrecv_event_model (selfId : Nat) (readOk : Bool) (r : Nat)
    (rio : List Nat) (fwdOk : Bool) : EventOutcome :=
  if readOk = false then { ret := -1, records := [], closedSelf := false }
  else if 0 < r then
    (if fwdOk then { ret := 0, records := [ChanRec.data selfId rio], closedSelf := false }
     else { ret := -1, records := [], closedSelf := false })
  else { ret := 0, records := [], closedSelf := false }

/-- `tunnel_close_event` (tunnel.c lines 433-441): write a close record
(ignoring the write's result), close the tunnel, return 0. -/
def tunnel_close_event_model (selfId : Nat) (chanOk : Bool) : EventOutcome :=
  { ret := 0,
    records := if chanOk then [ChanRec.closeRec selfId] else [],
    closedSelf := true }

/-- `tunnel_socksend_event` (tunnel.c lines 107-123): returns an error
when `net_write` fails, otherwise 0; it writes nothing on the
channel. -/
def tunnel_socksend_ret (sendOk : Bool) : Int :=
  if sendOk then 0 else -1

/-- Inputs of one socket-tunnel event (`tunnel_event`, tunnel.c lines
469-521): the outcome of `WSAEnumNetworkEvents` and the signalled
event bits, plus the outcomes of the external calls each handler can
make, in program order.  `sendOk1`/`readOk1`/`r1`/`rio1`/`fwdOk1`
feed the flush and first receive performed inside the `FD_CONNECT`
branch; `sendOk2` feeds the `FD_WRITE` (or post-connect) send and
`readOk2`/`r2`/`rio2`/`fwdOk2` the `FD_READ` receive. -/
structure SockEventIn where
  enumOk : Bool
  lastErrPending : Bool
  fdAccept : Bool
  fdConnect : Bool
  fdRead : Bool
  fdWrite : Bool
  fdClose : Bool
  connectErrCode : Nat
  acceptOk : Bool
  acceptTid : Nat
  cliAllocOk : Bool
  addOk : Bool
  acceptChanOk : Bool
  cliAddr : NetAddr
  watchOk : Bool
  wio : List Nat
  sendOk1 : Bool
  connChanOk : Bool
  selfAddr : NetAddr
  sendOk2 : Bool
  readOk1 : Bool
  r1 : Nat
  rio1 : List Nat
  fwdOk1 : Bool
  readOk2 : Bool
  r2 : Nat
  rio2 : List Nat
  fwdOk2 : Bool
  closeChanOk : Bool
deriving DecidableEq

/-- The `FD_ACCEPT` / `FD_CONNECT` / `FD_WRITE` dispatch chain of
`tunnel_event` (tunnel.c lines 483-500): the connect branch, on a
successful answer, additionally flushes and then reads once. -/
def tunnel_event_dispatch (selfId : Nat) (e : SockEventIn) : EventOutcome :=
  if e.fdAccept then
    tunnel_accept_event_model selfId e.acceptOk e.acceptTid e.cliAllocOk e.addOk
      e.acceptChanOk e.cliAddr
  else if e.fdConnect then
    let c := tunnel_connect_event_model selfId e.connectErrCode e.watchOk e.wio
      e.sendOk1 e.selfAddr e.connChanOk
    if c.ret = 0 then
      (if tunnel_socksend_ret e.sendOk2 ≥ 0 then
        let rv := tunnel_sockrecv_event_model selfId e.readOk1 e.r1 e.rio1 e.fwdOk1
        { ret := rv.ret, records := c.records ++ rv.records, closedSelf := false }
      else { ret := tunnel_socksend_ret e.sendOk2, records := c.records, closedSelf := false })
    else { ret := c.ret, records := c.records, closedSelf := false }
  else if e.fdWrite then
    { ret := tunnel_socksend_ret e.sendOk2, records := [], closedSelf := false }
  else { ret := 0, records := [], closedSelf := false }

/-- The dispatch chain followed by the `FD_READ` receive of
`tunnel_event` (tunnel.c lines 502-505), which runs only when the
accumulated return value is still non-negative. -/
def tunnel_event_core (selfId : Nat) (e : SockEventIn) : EventOutcome :=
  let d := tunnel_event_dispatch selfId e
  if d.ret ≥ 0 ∧ e.fdRead then
    let rv := tunnel_sockrecv_event_model selfId e.readOk2 e.r2 e.rio2 e.fwdOk2
    { ret := rv.ret, records := d.records ++ rv.records, closedSelf := d.closedSelf }
  else d

/-- The socket branch of `tunnel_event` (tunnel.c lines 469-521):
a failed `WSAEnumNetworkEvents` returns an error only when the last
error is not pending I/O; `FD_CLOSE` ends in `tunnel_close_event`;
otherwise a negative handler result closes the tunnel and the
function returns 0. -/
def tunnel_event_sock (selfId : Nat) (e : SockEventIn) : EventOutcome :=
  if e.enumOk = false then
    (if e.lastErrPending then { ret := 0, records := [], closedSelf := false }
     else { ret := -1, records := [], closedSelf := false })
  else
    let d := tunnel_event_core selfId e
    if e.fdClose then
      let ce := tunnel_close_event_model selfId e.closeChanOk
      { ret := ce.ret, records := d.records ++ ce.records, closedSelf := true }
    else if d.ret < 0 then { ret := 0, records := d.records, closedSelf := true }
    else { ret := 0, records := d.records, closedSelf := d.closedSelf }

/-- Effect of an event outcome on the registry of live tunnel ids: only
the tunnel owning the event is ever removed. -/
def applyOutcome (reg : List Nat) (selfId : Nat) (o : EventOutcome) : List Nat :=
  if o.closedSelf then reg.erase selfId else reg

/-- Result of `tunnel_write` (tunnel.c lines 529-559): the output buffer
right after the append step, whether an immediate drain of the
endpoint was attempted, and the return value. -/
structure WriteResult where
  wio : List Nat
  drainAttempt : Bool
  ret : Int
deriving DecidableEq

/-- `tunnel_write` (tunnel.c lines 529-559).  `used` is the buffer fill
before the append; the drain branch is entered only when the buffer
was empty and the tunnel is connected; `appendOk` abstracts
`iobuf_append`, `fdwriteOk` the process-pipe write, `watchOk`
`net_update_watch` and `sendOk` `tunnel_socksend_event`. -/
def tunnel_write_model (wio : List Nat) (connected isProc : Bool) (data : List Nat)
    (appendOk fdwriteOk watchOk sendOk : Bool) : WriteResult :=
  if 0 < data.length ∧ appendOk = false then
    { wio := wio, drainAttempt := false, ret := -1 }
  else
    let wio2 := wio ++ data
    if 0 < wio.length ∨ connected = false then
      { wio := wio2, drainAttempt := false, ret := 0 }
    else if isProc then
      { wio := wio2, drainAttempt := true, ret := if fdwriteOk then 0 else -1 }
    else if watchOk = false then
      { wio := wio2, drainAttempt := true, ret := -1 }
    else
      { wio := wio2, drainAttempt := true, ret := if sendOk then 0 else -1 }

/-- The port number carried by a resolved address. -/
def netaddrPort : NetAddr → Nat
  | NetAddr.ip4 p _ => p
  | NetAddr.ip6 p _ => p

/-- Operation sequence reaching the state (registry empty,
`last_tid = 0xfe`): 255 successful allocations followed by the close
of every allocated id. -/
def c6CexOps : List AllocOp :=
  List.replicate 255 AllocOp.alloc ++ (List.range 255).reverse.map AllocOp.close

/-- Event input for a pure mid-stream receive failure: only `FD_READ` is
signalled and `net_read` fails. -/
def c5CexIn : SockEventIn :=
  { enumOk := true, lastErrPending := false, fdAccept := false, fdConnect := false,
    fdRead := true, fdWrite := false, fdClose := false, connectErrCode := 0,
    acceptOk := true, acceptTid := 0, cliAllocOk := true, addOk := true,
    acceptChanOk := true, cliAddr := NetAddr.ip4 0 [0, 0, 0, 0], watchOk := true,
    wio := [], sendOk1 := true, connChanOk := true,
    selfAddr := NetAddr.ip4 0 [0, 0, 0, 0], sendOk2 := true, readOk1 := true,
    r1 := 0, rio1 := [], fwdOk1 := true, readOk2 := false, r2 := 0, rio2 := [],
    fwdOk2 := true, closeChanOk := true }

theorem tunnel_lookup_eq_true_iff (reg : List Nat) (i : Nat) :
    tunnel_lookup reg i = true ↔ i ∈ reg := by
  induction reg with
  | nil => simp [tunnel_lookup]
  | cons t r ih =>
    by_cases h : t = i
    · simp [tunnel_lookup, h]
    · simp [tunnel_lookup, h, ih, Ne.symm h]


theorem tunnel_lookup_eq_false_iff (reg : List Nat) (i : Nat) :
    tunnel_lookup reg i = false ↔ i ∉ reg := by
  rw [← tunnel_lookup_eq_true_iff reg i]
  cases h : tunnel_lookup reg i <;> simp

theorem scanFrom_some_not_mem (reg : List Nat) :
    ∀ fuel tid t, scanFrom reg tid fuel = some t → t ∉ reg := by
  intro fuel
  induction fuel with
  | zero => intro tid t h; simp [scanFrom] at h
  | succ n ih =>
    intro tid t h
    by_cases hl : tunnel_lookup reg tid
    · exact ih ((tid + 1) % 256) t (by simpa [scanFrom, hl] using h)
    · have : tid = t := by simpa [scanFrom, hl] using h
      subst this
      exact (tunnel_lookup_eq_false_iff reg tid).1 (by simpa using hl)

theorem scanFrom_some_lt (reg : List Nat) :
    ∀ fuel tid t, tid < 256 → scanFrom reg tid fuel = some t → t < 256 := by
  intro fuel
  induction fuel with
  | zero => intro tid t _ h; simp [scanFrom] at h
  | succ n ih =>
    intro tid t htid h
    by_cases hl : tunnel_lookup reg tid
    · exact ih ((tid + 1) % 256) t (Nat.mod_lt _ (by norm_num))
        (by simpa [scanFrom, hl] using h)
    · have : tid = t := by simpa [scanFrom, hl] using h
      subst this; exact htid

theorem tunnel_generate_id_fst_not_mem (s : AllocSt) (h255 : 255 ∉ s.reg) :
    (tunnel_generate_id s.reg s.last).1 ∉ s.reg := by
  unfold tunnel_generate_id
  cases h : scanFrom s.reg ((s.last + 1) % 256) 255 with
  | none => simpa using h255
  | some t => simpa using scanFrom_some_not_mem s.reg 255 _ t h

/-- C1 counterexample: `tunnel_create` with a bind request whose port is 0
invokes `process_start`, not `host_bind` — the request is treated as a
process tunnel. -/
theorem tunnel_create_port0_bind_cex :
    tunnel_create_driver 0 true = EndpointDriver.processStart ∧
    tunnel_create_driver 0 true ≠ EndpointDriver.hostBind := by
  decide

/-- C1 (amended): a create-bind request reaches `host_bind` only for
`port > 0` (a connect request reaches `host_connect`); every request
with `port == 0` is treated as a process tunnel, bind flag or not; and
when the bind succeeds the bind answer starts with error byte 0 and
reports the port of the address actually bound (hence an OS-assigned
port for listeners the OS numbered). -/
theorem tunnel_create_bind_routing :
    (∀ b : Bool, tunnel_create_driver 0 b = EndpointDriver.processStart)
    ∧ (∀ p : Nat, ∀ b : Bool,
        tunnel_create_driver (p + 1) b
          = (if b then EndpointDriver.hostBind else EndpointDriver.hostConnect))
    ∧ (∀ addr : NetAddr,
        (host_bind_answer (Except.ok addr) true).head? = some 0
        ∧ ((host_bind_answer (Except.ok addr) true).drop 2).take 2
            = portBytes (netaddrPort addr)) := by
  refine ⟨fun b => rfl, fun p b => by simp [tunnel_create_driver], fun addr => ?_⟩
  cases addr <;>
    simp [host_bind_answer, netaddr_to_connans, netaddrPort, R2TERR_SUCCESS,
      TUNAF_IPV4, TUNAF_IPV6, portBytes]

/-- C8: the fixed error table of `wsa_to_r2t_error`: access denied maps to
forbidden (2), connection refused to conn-refused (3), address not
available to not-available (4), host not found to resolve (5), and
every other OS error code to generic (1). -/
theorem wsa_to_r2t_error_table :
    wsa_to_r2t_error WSAEACCES = R2TERR_FORBIDDEN
    ∧ wsa_to_r2t_error WSAECONNREFUSED = R2TERR_CONNREFUSED
    ∧ wsa_to_r2t_error WSAEADDRNOTAVAIL = R2TERR_NOTAVAIL
    ∧ wsa_to_r2t_error WSAHOST_NOT_FOUND = R2TERR_RESOLVE
    ∧ (∀ e : Nat, e ≠ WSAEACCES → e ≠ WSAECONNREFUSED → e ≠ WSAEADDRNOTAVAIL →
        e ≠ WSAHOST_NOT_FOUND → wsa_to_r2t_error e = R2TERR_GENERIC) := by
  refine ⟨by decide, by decide, by decide, by decide, ?_⟩
  intro e h1 h2 h3 h4
  simp [wsa_to_r2t_error, h1, h2, h3, h4]

/-- C8 witness: a concrete unlisted error code (0) maps to generic. -/
theorem wsa_to_r2t_error_table_witness :
    wsa_to_r2t_error 0 = R2TERR_GENERIC :=
  wsa_to_r2t_error_table.2.2.2.2 0 (by decide) (by decide) (by decide) (by decide)

/-- C9: the success answer built from an ipv4 address is exactly the
8 bytes {err 0, af 1, port high byte, port low byte, 4 raw address
bytes}; from an ipv6 address exactly the 20 bytes {err 0, af 2, the
2 port bytes, 16 raw address bytes}. -/
theorem netaddr_to_connans_layout :
    (∀ p a, p < 65536 → a.length = 4 →
        netaddr_to_connans (NetAddr.ip4 p a) = 0 :: 1 :: p / 256 :: p % 256 :: a
        ∧ (netaddr_to_connans (NetAddr.ip4 p a)).length = 8)
    ∧ (∀ p a, p < 65536 → a.length = 16 →
        netaddr_to_connans (NetAddr.ip6 p a) = 0 :: 2 :: p / 256 :: p % 256 :: a
        ∧ (netaddr_to_connans (NetAddr.ip6 p a)).length = 20) := by
  constructor
  · intro p a hp ha
    have hdiv : p / 256 % 256 = p / 256 :=
      Nat.mod_eq_of_lt ((Nat.div_lt_iff_lt_mul (by norm_num)).2 (by omega))
    have htake : a.take 4 = a := by
      rw [← ha]; exact List.take_length a
    constructor
    · simp [netaddr_to_connans, portBytes, R2TERR_SUCCESS, TUNAF_IPV4, hdiv, htake]
    · simp [netaddr_to_connans, portBytes, htake, ha]
  · intro p a hp ha
    have hdiv : p / 256 % 256 = p / 256 :=
      Nat.mod_eq_of_lt ((Nat.div_lt_iff_lt_mul (by norm_num)).2 (by omega))
    have htake : a.take 16 = a := by
      rw [← ha]; exact List.take_length a
    constructor
    · simp [netaddr_to_connans, portBytes, R2TERR_SUCCESS, TUNAF_IPV6, hdiv, htake]
    · simp [netaddr_to_connans, portBytes, htake, ha]

/-- C9 witness: the answer for 127.0.0.1:80 is the 8 concrete bytes. -/
theorem netaddr_to_connans_layout_witness :
    netaddr_to_connans (NetAddr.ip4 80 [127, 0, 0, 1]) = 0 :: 1 :: 0 :: 80 :: [127, 0, 0, 1]
    ∧ (netaddr_to_connans (NetAddr.ip4 80 [127, 0, 0, 1])).length = 8 :=
  netaddr_to_connans_layout.1 80 [127, 0, 0, 1] (by decide) (by decide)

theorem allocStep_not_mem_255 (s : AllocSt) (op : AllocOp) (h : 255 ∉ s.reg) :
    255 ∉ (allocStep s op).reg := by
  cases op with
  | alloc =>
    show 255 ∉ (allocOnce s).reg
    unfold allocOnce
    by_cases h1 : (tunnel_generate_id s.reg s.last).1 = 255
    · simpa [h1] using h
    · simp only [h1, if_false]
      intro hmem
      rcases List.mem_cons.1 hmem with h2 | h2
      · exact h1 h2.symm
      · exact h h2
  | close i =>
    show 255 ∉ (closeId s i).reg
    exact fun hmem => h (List.mem_of_mem_erase hmem)

theorem runAllocFrom_not_mem_255 (ops : List AllocOp) :
    ∀ s : AllocSt, 255 ∉ s.reg → 255 ∉ (runAllocFrom s ops).reg := by
  induction ops with
  | nil => intro s h; exact h
  | cons op rest ih =>
    intro s h
    exact ih (allocStep s op) (allocStep_not_mem_255 s op h)

theorem runAlloc_not_mem_255 (ops : List AllocOp) : 255 ∉ (runAlloc ops).reg :=
  runAllocFrom_not_mem_255 ops allocInit (by simp [allocInit])

theorem alloc_exhaustion :
    ∀ s : AllocSt,
      ∃ n, (tunnel_generate_id ((allocN n s).reg) ((allocN n s).last)).1 = 255 := by
  have main : ∀ m : Nat, ∀ s : AllocSt, (freeIds s).card = m →
      ∃ n, (tunnel_generate_id ((allocN n s).reg) ((allocN n s).last)).1 = 255 := by
    intro m
    induction m using Nat.strong_induction_on with
    | _ m ih =>
      intro s hm
      by_cases h : (tunnel_generate_id s.reg s.last).1 = 255
      · exact ⟨0, h⟩
      · obtain ⟨t, hscan, ht⟩ : ∃ t, scanFrom s.reg ((s.last + 1) % 256) 255 = some t
            ∧ tunnel_generate_id s.reg s.last = (t, t) := by
          unfold tunnel_generate_id at h ⊢
          cases hs : scanFrom s.reg ((s.last + 1) % 256) 255 with
          | none => simp [hs] at h
          | some t => exact ⟨t, rfl, by simp⟩
        have htne : t ≠ 255 := fun he => h (by rw [ht, he])
        have htnm : t ∉ s.reg := scanFrom_some_not_mem s.reg 255 _ t hscan
        have htlt : t < 256 :=
          scanFrom_some_lt s.reg 255 _ t (Nat.mod_lt _ (by norm_num)) hscan
        have hstep : allocOnce s = { reg := t :: s.reg, last := t } := by
          unfold allocOnce
          rw [ht]
          simp [htne]
        have hsub : freeIds (allocOnce s) ⊂ freeIds s := by
          rw [hstep]
          constructor
          · intro i hi
            simp only [freeIds, Finset.mem_filter, Finset.mem_range, List.mem_cons,
              not_or] at hi ⊢
            exact ⟨hi.1, hi.2.2⟩
          · intro hcon
            have hmem : t ∈ freeIds (AllocSt.mk (t :: s.reg) t) := by
              apply hcon
              simp only [freeIds, Finset.mem_filter, Finset.mem_range]
              exact ⟨htlt, htnm⟩
            simp [freeIds] at hmem
        have hcard : (freeIds (allocOnce s)).card < m :=
          hm ▸ Finset.card_lt_card hsub
        obtain ⟨n, hn⟩ := ih _ hcard (allocOnce s) rfl
        exact ⟨n + 1, by simpa [allocN] using hn⟩
  intro s
  exact main _ s rfl

/-- C2: for every sequence of allocations and closes, `tunnel_generate_id`
never returns an id present in the registry, id 0xff never enters the
registry (a 0xff return is treated as the exhaustion sentinel by the
caller and allocates nothing), and repeated allocation without closes
eventually returns the exhaustion sentinel. -/
theorem tunnel_generate_id_registry_sound :
    ∀ ops : List AllocOp,
      (tunnel_generate_id (runAlloc ops).reg (runAlloc ops).last).1 ∉ (runAlloc ops).reg
      ∧ 255 ∉ (runAlloc ops).reg
      ∧ ∃ n, (tunnel_generate_id ((allocN n (runAlloc ops)).reg)
                ((allocN n (runAlloc ops)).last)).1 = 255 := by
  intro ops
  have h255 := runAlloc_not_mem_255 ops
  exact ⟨tunnel_generate_id_fst_not_mem _ h255, h255, alloc_exhaustion _⟩

theorem scanFrom_eq_find (reg : List Nat) :
    ∀ fuel tid, tid < 256 →
      scanFrom reg tid fuel
        = ((List.range fuel).map (fun i => (tid + i) % 256)).find?
            (fun i => !(tunnel_lookup reg i)) := by
  intro fuel
  induction fuel with
  | zero => intro tid _; simp [scanFrom]
  | succ n ih =>
    intro tid htid
    rw [List.range_succ_eq_map, List.map_cons, List.map_map]
    have hhead : (tid + 0) % 256 = tid := by
      simpa using Nat.mod_eq_of_lt htid
    have htail :
        ((List.range n).map ((fun i => (tid + i) % 256) ∘ Nat.succ))
          = (List.range n).map (fun i => ((tid + 1) % 256 + i) % 256) := by
      apply List.map_congr_left
      intro i _
      show (tid + (i + 1)) % 256 = ((tid + 1) % 256 + i) % 256
      rw [Nat.mod_add_mod]
      omega
    rw [hhead, htail]
    by_cases hl : tunnel_lookup reg tid
    · rw [List.find?_cons_of_neg _ (by simp [hl])]
      simpa [scanFrom, hl] using ih ((tid + 1) % 256) (Nat.mod_lt _ (by norm_num))
    · rw [List.find?_cons_of_pos _ (by simp [hl])]
      simp [scanFrom, hl]

theorem tunnel_generate_id_spec (reg : List Nat) (last : Nat) :
    tunnel_generate_id reg last
      = match (scanSeq last).find? (fun i => !(tunnel_lookup reg i)) with
        | some t => (t, t)
        | none => (255, last) := by
  have hlist :
      ((List.range 255).map (fun i => ((last + 1) % 256 + i) % 256)) = scanSeq last := by
    apply List.map_congr_left
    intro i _
    show ((last + 1) % 256 + i) % 256 = (last + 1 + i) % 256
    rw [Nat.mod_add_mod]
  unfold tunnel_generate_id
  rw [scanFrom_eq_find reg 255 ((last + 1) % 256) (Nat.mod_lt _ (by norm_num)), hlist]

theorem runAllocFrom_append (s : AllocSt) (l1 l2 : List AllocOp) :
    runAllocFrom s (l1 ++ l2) = runAllocFrom (runAllocFrom s l1) l2 := by
  unfold runAllocFrom
  rw [List.foldl_append]

theorem tunnel_generate_id_first_free (reg : List Nat) (last : Nat)
    (h : tunnel_lookup reg ((last + 1) % 256) = false) :
    tunnel_generate_id reg last = ((last + 1) % 256, (last + 1) % 256) := by
  have hscan : scanFrom reg ((last + 1) % 256) 255 = some ((last + 1) % 256) := by
    show scanFrom reg ((last + 1) % 256) (Nat.succ 254) = some ((last + 1) % 256)
    unfold scanFrom
    simp [h]
  unfold tunnel_generate_id
  rw [hscan]

theorem allocPhase :
    ∀ n, n ≤ 255 →
      runAllocFrom allocInit (List.replicate n AllocOp.alloc)
        = { reg := (List.range n).reverse, last := if n = 0 then 255 else n - 1 } := by
  intro n
  induction n with
  | zero => intro _; simp [runAllocFrom, allocInit]
  | succ k ih =>
    intro hk
    have hk255 : k ≤ 255 := Nat.le_of_succ_le hk
    have hklt : k < 255 := Nat.lt_of_succ_le hk
    rw [List.replicate_succ', runAllocFrom_append, ih hk255]
    have hstart : ((if k = 0 then 255 else k - 1) + 1) % 256 = k := by
      by_cases h0 : k = 0
      · simp [h0]
      · have hs : k - 1 + 1 = k := Nat.succ_pred_eq_of_pos (Nat.pos_of_ne_zero h0)
        rw [if_neg h0, hs]
        exact Nat.mod_eq_of_lt (lt_trans hklt (by norm_num))
    have hgen : tunnel_generate_id ((List.range k).reverse) (if k = 0 then 255 else k - 1)
        = (k, k) := by
      have hlf : tunnel_lookup ((List.range k).reverse)
          (((if k = 0 then 255 else k - 1) + 1) % 256) = false := by
        rw [hstart, tunnel_lookup_eq_false_iff]
        simp
      rw [tunnel_generate_id_first_free _ _ hlf, hstart]
    have hkne : k ≠ 255 := Nat.ne_of_lt hklt
    have hrange : k :: (List.range k).reverse = (List.range (k + 1)).reverse := by
      rw [List.range_succ, List.reverse_append]
      simp
    show allocOnce { reg := (List.range k).reverse, last := if k = 0 then 255 else k - 1 } = _
    simp [allocOnce, hgen, hkne, hrange]

theorem closePhase :
    ∀ k l, runAllocFrom { reg := (List.range k).reverse, last := l }
        ((List.range k).reverse.map AllocOp.close)
      = { reg := [], last := l } := by
  intro k
  induction k with
  | zero => intro l; simp [runAllocFrom]
  | succ m ih =>
    intro l
    have hrev : (List.range (m + 1)).reverse = m :: (List.range m).reverse := by
      rw [List.range_succ, List.reverse_append]
      simp
    rw [hrev, List.map_cons]
    show runAllocFrom (allocStep _ (AllocOp.close m)) _ = _
    have hstep : allocStep { reg := m :: (List.range m).reverse, last := l }
        (AllocOp.close m) = { reg := (List.range m).reverse, last := l } := by
      show closeId _ m = _
      unfold closeId
      simp [List.erase_cons_head]
    rw [hstep, ih l]

theorem c6CexState : runAlloc c6CexOps = { reg := [], last := 254 } := by
  show runAllocFrom allocInit (List.replicate 255 AllocOp.alloc
    ++ (List.range 255).reverse.map AllocOp.close) = _
  rw [runAllocFrom_append, allocPhase 255 (le_refl 255)]
  simpa using closePhase 255 254

/-- C6 counterexample: the sequence of 255 allocations followed by the
close of all 255 allocated ids is a legal run of allocations and
closes; it leaves the registry empty with `last_tid = 0xfe`.  The next
`tunnel_generate_id` call then returns 0xff — the value the caller
reads as exhaustion — through its success branch (it even sets
`last_tid` to 0xff), at the very first scanned candidate, although
every id is free and no full scan failed. -/
theorem tunnel_generate_id_spurious_exhaustion_cex :
    (runAlloc c6CexOps).reg = [] ∧ (runAlloc c6CexOps).last = 254
    ∧ tunnel_generate_id (runAlloc c6CexOps).reg (runAlloc c6CexOps).last = (255, 255) := by
  rw [c6CexState]
  refine ⟨rfl, rfl, ?_⟩
  decide

/-- C6 (amended): `tunnel_generate_id` scans the 255 candidates
`(last+1) % 256 … (last+255) % 256` in order and returns the first one
not in the registry, updating `last` to it; if all scanned candidates
are taken it returns 0xff leaving `last` unchanged.  The returned
value is 0xff — indistinguishable from exhaustion for the caller —
either when the full scan finds no free id or when 0xff itself is the
first free scanned candidate. -/
theorem tunnel_generate_id_scan_order :
    ∀ reg last,
      (∀ t, (scanSeq last).find? (fun i => !(tunnel_lookup reg i)) = some t →
          tunnel_generate_id reg last = (t, t))
      ∧ ((scanSeq last).find? (fun i => !(tunnel_lookup reg i)) = none →
          tunnel_generate_id reg last = (255, last))
      ∧ ((tunnel_generate_id reg last).1 = 255 ↔
          (scanSeq last).find? (fun i => !(tunnel_lookup reg i)) = none
          ∨ (scanSeq last).find? (fun i => !(tunnel_lookup reg i)) = some 255) := by
  intro reg last
  refine ⟨?_, ?_, ?_⟩
  · intro t ht
    have hspec := tunnel_generate_id_spec reg last
    rw [ht] at hspec
    exact hspec
  · intro hn
    have hspec := tunnel_generate_id_spec reg last
    rw [hn] at hspec
    exact hspec
  · have hspec := tunnel_generate_id_spec reg last
    cases hf : (scanSeq last).find? (fun i => !(tunnel_lookup reg i)) with
    | none =>
      rw [hf] at hspec
      rw [hspec]
      simp
    | some t =>
      rw [hf] at hspec
      constructor
      · intro h1
        right
        rw [hspec] at h1
        simp only at h1
        rw [h1]
      · intro h2
        rcases h2 with h2 | h2
        · exact Option.noConfusion h2
        · have ht : t = 255 := Option.some_injective _ h2
          rw [hspec, ht]

theorem netaddr_to_connans_head (addr : NetAddr) :
    (netaddr_to_connans addr).head? = some 0 := by
  cases addr <;> rfl

theorem wsa_to_r2t_error_ne_zero (e : Nat) : wsa_to_r2t_error e ≠ 0 := by
  unfold wsa_to_r2t_error
  split_ifs <;> decide

/-- C4 counterexample: when `net_server` succeeds but `event_add_tunnel`
then fails, `host_bind` sends a failure answer (leading error byte 1)
that still carries the full 8-byte codec output for the bound ipv4
address — not a single error byte. -/
theorem host_bind_fail_answer_cex :
    host_bind_answer (Except.ok (NetAddr.ip4 80 [127, 0, 0, 1])) false
      = [1, 1, 0, 80, 127, 0, 0, 1]
    ∧ (host_bind_answer (Except.ok (NetAddr.ip4 80 [127, 0, 0, 1])) false).length = 8
    ∧ (host_bind_answer (Except.ok (NetAddr.ip4 80 [127, 0, 0, 1])) false).head? ≠ some 0 := by
  decide

/-- C4 (amended): failed open-connect answers always carry exactly one
nonzero byte (`host_connect` failure path and every failure branch of
`tunnel_connect_event`); a failed open-bind answer carries one byte
when the bind itself failed, but when the bind succeeded and endpoint
registration then fails the failure answer keeps the full codec
length with only the error byte overwritten; success answers are the
full codec output. -/
theorem open_failure_answer_sizes :
    (∀ e, host_connect_fail_answer e = [wsa_to_r2t_error e] ∧ wsa_to_r2t_error e ≠ 0)
    ∧ (∀ err watchOk wio sendOk addr,
        (tunnel_connect_event_ans err watchOk wio sendOk addr).head? ≠ some R2TERR_SUCCESS →
        (tunnel_connect_event_ans err watchOk wio sendOk addr).length = 1)
    ∧ (∀ e addOk, host_bind_answer (Except.error e) addOk = [wsa_to_r2t_error e])
    ∧ (∀ addr, (host_bind_answer (Except.ok addr) false).head? = some R2TERR_GENERIC
        ∧ (host_bind_answer (Except.ok addr) false).length = (netaddr_to_connans addr).length)
    ∧ (∀ addr, host_bind_answer (Except.ok addr) true = netaddr_to_connans addr) := by
  refine ⟨fun e => ⟨rfl, wsa_to_r2t_error_ne_zero e⟩, ?_, fun e addOk => rfl, ?_, fun addr => rfl⟩
  · intro err watchOk wio sendOk addr h
    unfold tunnel_connect_event_ans at h ⊢
    split_ifs at h ⊢ <;> first
      | rfl
      | exact absurd (netaddr_to_connans_head addr) (by simpa [R2TERR_SUCCESS] using h)
  · intro addr
    constructor
    · cases addr <;> rfl
    · cases addr <;> simp [host_bind_answer, netaddr_to_connans]

/-- C4 witness: a connect answer whose error byte is nonzero (here a
refused connection) has exactly one byte. -/
theorem open_failure_answer_sizes_witness :
    (tunnel_connect_event_ans WSAECONNREFUSED true [] true (NetAddr.ip4 0 [0, 0, 0, 0])).length
      = 1 :=
  open_failure_answer_sizes.2.1 WSAECONNREFUSED true [] true (NetAddr.ip4 0 [0, 0, 0, 0])
    (by decide)

/-- C7: `tunnel_write` with nonempty data appends the bytes to `wio`
(the result buffer is the old buffer followed by the data) and enters
the immediate-drain branch exactly when the tunnel is connected and
`wio` was empty before the append; and on the pending-to-established
transition (`tunnel_connect_event` with no error and a successful
watch update) the held bytes are flushed exactly when `wio` is
nonempty. -/
theorem tunnel_write_append_then_drain :
    (∀ wio (connected isProc : Bool) data (fdwriteOk watchOk sendOk : Bool),
        data ≠ [] →
        (tunnel_write_model wio connected isProc data true fdwriteOk watchOk sendOk).wio
            = wio ++ data
        ∧ (tunnel_write_model wio connected isProc data true fdwriteOk watchOk sendOk).drainAttempt
            = (connected && wio.isEmpty))
    ∧ (∀ selfId wio (sendOk chanOk : Bool) (addr : NetAddr),
        (tunnel_connect_event_model selfId 0 true wio sendOk addr chanOk).drained
          = !wio.isEmpty) := by
  constructor
  · intro wio connected isProc data fdwriteOk watchOk sendOk _
    unfold tunnel_write_model
    cases connected <;> cases wio <;>
      first
        | (simp; split_ifs <;> simp)
        | simp
  · intro selfId wio sendOk chanOk addr
    simp [tunnel_connect_event_model]

/-- C7 witness: writing one byte into an empty buffer of a connected
socket tunnel appends it and attempts the immediate drain. -/
theorem tunnel_write_append_then_drain_witness :
    (tunnel_write_model [] true false [7] true true true true).wio = [] ++ [7]
    ∧ (tunnel_write_model [] true false [7] true true true true).drainAttempt
        = (true && ([] : List Nat).isEmpty) :=
  tunnel_write_append_then_drain.1 [] true false [7] true true true (by decide)

theorem regStep_mem (s : RegSt) (op : RegOp) (t : Tunnel)
    (h : t ∈ (regStep s op).tunnels) :
    t ∈ s.tunnels ∨ t.serial = s.nextSerial := by
  cases op with
  | create i ok =>
    by_cases hok : ok = true
    · subst hok
      simp only [regStep, if_pos rfl] at h
      rcases List.mem_append.1 h with h1 | h1
      · exact Or.inl h1
      · right
        have : t = { serial := s.nextSerial, id := i } := by simpa using h1
        rw [this]
    · have hf : ok = false := by
        cases ok
        · rfl
        · exact absurd rfl hok
      subst hf
      exact Or.inl (by simpa [regStep] using h)
  | accept lserial acceptOk cliAllocOk addOk chanOk =>
    by_cases hac : acceptOk = true
    · subst hac
      simp only [regStep, if_pos rfl] at h
      set r := tunnel_generate_id (s.tunnels.map Tunnel.id) s.last with hr
      by_cases h255 : r.1 = 255
      · rw [if_pos h255] at h
        exact Or.inl h
      · rw [if_neg h255] at h
        by_cases hca : cliAllocOk = false
        · rw [if_pos hca] at h
          exact Or.inl h
        · rw [if_neg hca] at h
          by_cases had : addOk = false
          · rw [if_pos had] at h
            exact Or.inl h
          · rw [if_neg had] at h
            have hmem : t ∈ s.tunnels ++ [{ serial := s.nextSerial, id := r.1 }] := by
              by_cases hch : chanOk = true
              · subst hch
                simpa using h
              · have hf : chanOk = false := by
                  cases chanOk
                  · rfl
                  · exact absurd rfl hch
                subst hf
                simp only [Bool.false_eq_true, if_false] at h
                exact (List.eraseP_sublist _).subset h
            rcases List.mem_append.1 hmem with h1 | h1
            · exact Or.inl h1
            · right
              have : t = { serial := s.nextSerial, id := r.1 } := by simpa using h1
              rw [this]
    · have hf : acceptOk = false := by
        cases acceptOk
        · rfl
        · exact absurd rfl hac
      subst hf
      exact Or.inl (by simpa [regStep] using h)
  | closeT serial =>
    exact Or.inl ((List.eraseP_sublist _).subset h)

theorem regStep_nextSerial_mono (s : RegSt) (op : RegOp) :
    s.nextSerial ≤ (regStep s op).nextSerial := by
  cases op with
  | create i ok =>
    cases ok <;> simp [regStep]
  | accept lserial acceptOk cliAllocOk addOk chanOk =>
    cases acceptOk
    · simp [regStep]
    · simp only [regStep, if_pos rfl]
      split_ifs <;> simp
  | closeT serial => simp [regStep]

theorem nodup_append_singleton {α : Type} (l : List α) (a : α)
    (h : l.Nodup) (ha : a ∉ l) : (l ++ [a]).Nodup := by
  rw [List.nodup_append]
  refine ⟨h, List.nodup_singleton a, ?_⟩
  intro x hx hxa
  have : x = a := by simpa using hxa
  subst this
  exact ha hx

theorem regStep_inv (s : RegSt) (op : RegOp) (hinv : RegInv s) :
    RegInv (regStep s op) := by
  obtain ⟨hnd, hlt⟩ := hinv
  have hfresh : s.nextSerial ∉ List.map Tunnel.serial s.tunnels := by
    intro hmem
    rcases List.mem_map.1 hmem with ⟨t, ht, hts⟩
    exact absurd hts (Nat.ne_of_lt (hlt t ht))
  have hgnd : ∀ i : Nat,
      (List.map Tunnel.serial (s.tunnels ++ [{ serial := s.nextSerial, id := i }])).Nodup := by
    intro i
    rw [List.map_append]
    exact nodup_append_singleton _ _ hnd (by simpa using hfresh)
  have hglt : ∀ i : Nat, ∀ t ∈ s.tunnels ++ [{ serial := s.nextSerial, id := i }],
      t.serial < s.nextSerial + 1 := by
    intro i t ht
    rcases List.mem_append.1 ht with h1 | h1
    · exact Nat.lt_succ_of_lt (hlt t h1)
    · have he : t = { serial := s.nextSerial, id := i } := by simpa using h1
      rw [he]
      exact Nat.lt_succ_self _
  cases op with
  | create i ok =>
    simp only [regStep]
    split_ifs
    · exact ⟨hgnd i, hglt i⟩
    · exact ⟨hnd, hlt⟩
  | accept lserial acceptOk cliAllocOk addOk chanOk =>
    simp only [regStep]
    split_ifs
    · exact ⟨hnd, hlt⟩
    · exact ⟨hnd, hlt⟩
    · exact ⟨hnd, hlt⟩
    · exact ⟨hgnd _, hglt _⟩
    · constructor
      · exact List.Nodup.sublist (List.Sublist.map _ (List.eraseP_sublist _)) (hgnd _)
      · intro t ht
        exact hglt _ t ((List.eraseP_sublist _).subset ht)
    · exact ⟨hnd, hlt⟩
  | closeT serial =>
    constructor
    · exact List.Nodup.sublist (List.Sublist.map _ (List.eraseP_sublist _)) hnd
    · intro t ht
      exact hlt t ((List.eraseP_sublist _).subset ht)

theorem runRegFrom_append (s : RegSt) (l1 l2 : List RegOp) :
    runRegFrom s (l1 ++ l2) = runRegFrom (runRegFrom s l1) l2 := by
  unfold runRegFrom
  rw [List.foldl_append]

theorem runRegFrom_inv (ops : List RegOp) :
    ∀ s, RegInv s → RegInv (runRegFrom s ops) := by
  induction ops with
  | nil => intro s h; exact h
  | cons op rest ih => intro s h; exact ih (regStep s op) (regStep_inv s op h)

theorem runRegFrom_nextSerial_mono (ops : List RegOp) :
    ∀ s, s.nextSerial ≤ (runRegFrom s ops).nextSerial := by
  induction ops with
  | nil => intro s; exact le_refl _
  | cons op rest ih =>
    intro s
    exact le_trans (regStep_nextSerial_mono s op) (ih (regStep s op))

theorem runRegFrom_mem_low (ops : List RegOp) :
    ∀ s t, RegInv s → t ∈ (runRegFrom s ops).tunnels → t.serial < s.nextSerial →
      t ∈ s.tunnels := by
  induction ops with
  | nil => intro s t _ h _; exact h
  | cons op rest ih =>
    intro s t hinv hmem hlow
    have h2 : t ∈ (regStep s op).tunnels :=
      ih (regStep s op) t (regStep_inv s op hinv) hmem
        (lt_of_lt_of_le hlow (regStep_nextSerial_mono s op))
    rcases regStep_mem s op t h2 with h3 | h3
    · exact h3
    · exact absurd h3 (Nat.ne_of_lt hlow)

theorem regInit_inv : RegInv regInit := by
  constructor
  · simp [regInit]
  · intro t ht
    simp [regInit] at ht

theorem runReg_inv (ops : List RegOp) : RegInv (runReg ops) :=
  runRegFrom_inv ops regInit regInit_inv

theorem tunnel_generate_id_fst_not_mem_of_ne (reg : List Nat) (last : Nat)
    (h : (tunnel_generate_id reg last).1 ≠ 255) :
    (tunnel_generate_id reg last).1 ∉ reg := by
  unfold tunnel_generate_id at h ⊢
  cases hs : scanFrom reg ((last + 1) % 256) 255 with
  | none => rw [hs] at h; simp at h
  | some t =>
    exact scanFrom_some_not_mem reg 255 _ t hs

theorem regStep_ids_nodup (s : RegSt) (op : RegOp)
    (h : (s.tunnels.map Tunnel.id).Nodup)
    (hgood : (match op with
      | RegOp.create i _ok => !_ok || !(tunnel_lookup (s.tunnels.map Tunnel.id) i)
      | _ => true) = true) :
    ((regStep s op).tunnels.map Tunnel.id).Nodup := by
  cases op with
  | create i ok =>
    cases ok with
    | false => simpa [regStep] using h
    | true =>
      have hlk : tunnel_lookup (s.tunnels.map Tunnel.id) i = false := by
        simpa using hgood
      have hni : i ∉ s.tunnels.map Tunnel.id := (tunnel_lookup_eq_false_iff _ _).1 hlk
      have hstep : (regStep s (RegOp.create i true)).tunnels
          = s.tunnels ++ [{ serial := s.nextSerial, id := i }] := by
        simp [regStep]
      rw [hstep]
      simp only [List.map_append, List.map_cons, List.map_nil]
      exact nodup_append_singleton _ _ h (by simpa using hni)
  | accept lserial acceptOk cliAllocOk addOk chanOk =>
    simp only [regStep]
    split_ifs with hA h255 hCA hAD hCH
    · exact h
    · exact h
    · exact h
    · have hni : (tunnel_generate_id (s.tunnels.map Tunnel.id) s.last).1
          ∉ s.tunnels.map Tunnel.id :=
        tunnel_generate_id_fst_not_mem_of_ne _ _ h255
      simp only [List.map_append, List.map_cons, List.map_nil]
      exact nodup_append_singleton _ _ h (by simpa using hni)
    · have hni : (tunnel_generate_id (s.tunnels.map Tunnel.id) s.last).1
          ∉ s.tunnels.map Tunnel.id :=
        tunnel_generate_id_fst_not_mem_of_ne _ _ h255
      apply List.Nodup.sublist (List.Sublist.map _ (List.eraseP_sublist _))
      simp only [List.map_append, List.map_cons, List.map_nil]
      exact nodup_append_singleton _ _ h (by simpa using hni)
    · exact h
  | closeT serial =>
    exact List.Nodup.sublist (List.Sublist.map _ (List.eraseP_sublist _)) h

theorem runRegFrom_ids_nodup (ops : List RegOp) :
    ∀ s, (s.tunnels.map Tunnel.id).Nodup → goodOps s ops = true →
      ((runRegFrom s ops).tunnels.map Tunnel.id).Nodup := by
  induction ops with
  | nil => intro s h _; exact h
  | cons op rest ih =>
    intro s h hgood
    unfold goodOps at hgood
    rw [Bool.and_eq_true] at hgood
    exact ih (regStep s op) (regStep_ids_nodup s op h hgood.1) hgood.2

/-- C3 counterexample: two successive `tunnel_create` calls with the same
controller-supplied id 5, both of whose endpoint drivers succeed, leave
two live tunnels carrying the same id in the registry — `tunnel_create`
performs no duplicate check. -/
theorem tunnel_create_duplicate_id_cex :
    (runReg [RegOp.create 5 true, RegOp.create 5 true]).tunnels.map Tunnel.id = [5, 5]
    ∧ ¬ ((runReg [RegOp.create 5 true, RegOp.create 5 true]).tunnels.map Tunnel.id).Nodup := by
  constructor
  · decide
  · decide

/-- C3 (amended): provided every successful controller-issued
`tunnel_create` uses an id that is not currently live, after every
operation sequence no two live tunnels share an id (server-minted
accept ids are always fresh and closes only remove); and,
unconditionally, a tunnel's id never changes between its creation and
its destruction: the same live tunnel observed in a later state
carries the same id. -/
theorem registry_ids_unique_and_immutable :
    (∀ ops, goodOps regInit ops = true → ((runReg ops).tunnels.map Tunnel.id).Nodup)
    ∧ (∀ ops more t t2, t ∈ (runReg ops).tunnels → t2 ∈ (runReg (ops ++ more)).tunnels →
        t.serial = t2.serial → t.id = t2.id) := by
  constructor
  · intro ops hgood
    exact runRegFrom_ids_nodup ops regInit (by simp [regInit]) hgood
  · intro ops more t t2 ht ht2 hser
    have hinv : RegInv (runReg ops) := runReg_inv ops
    have hrw : runReg (ops ++ more) = runRegFrom (runReg ops) more := by
      unfold runReg
      rw [runRegFrom_append]
    rw [hrw] at ht2
    have hlow : t2.serial < (runReg ops).nextSerial := by
      rw [← hser]
      exact hinv.2 t ht
    have ht2b : t2 ∈ (runReg ops).tunnels := runRegFrom_mem_low more _ t2 hinv ht2 hlow
    have heq : t = t2 := List.inj_on_of_nodup_map hinv.1 ht ht2b hser
    rw [heq]

/-- C3 witness: a single well-driven create keeps ids unique, and the
created tunnel's id is stable across the empty continuation. -/
theorem registry_ids_unique_and_immutable_witness :
    ((runReg [RegOp.create 5 true]).tunnels.map Tunnel.id).Nodup
    ∧ (Tunnel.mk 0 5).id = (Tunnel.mk 0 5).id :=
  ⟨registry_ids_unique_and_immutable.1 [RegOp.create 5 true] (by decide),
   registry_ids_unique_and_immutable.2 [RegOp.create 5 true] [] (Tunnel.mk 0 5) (Tunnel.mk 0 5)
     (by decide) (by decide) rfl⟩

/-- C10: for a socket tunnel, `tunnel_event` returns nonzero exactly when
`WSAEnumNetworkEvents` fails with an error other than pending I/O;
whenever the event set was obtained, the return value is 0 even if a
per-event handler fails — the failing tunnel is then torn down and the
error absorbed. -/
theorem tunnel_event_absorbs_handler_errors :
    (∀ selfId e, (tunnel_event_sock selfId e).ret ≠ 0 ↔
        e.enumOk = false ∧ e.lastErrPending = false)
    ∧ (∀ selfId e, e.enumOk = true → e.fdClose = false →
        (tunnel_event_core selfId e).ret < 0 →
        (tunnel_event_sock selfId e).ret = 0
        ∧ (tunnel_event_sock selfId e).closedSelf = true) := by
  constructor
  · intro selfId e
    unfold tunnel_event_sock
    cases he : e.enumOk
    · cases hp : e.lastErrPending <;> simp
    · simp only [Bool.true_eq_false, if_false]
      split_ifs <;> simp [tunnel_close_event_model]
  · intro selfId e he hc hlt
    unfold tunnel_event_sock
    simp only [he, hc, Bool.true_eq_false, Bool.false_eq_true, if_false, hlt, if_true]
    simp [hlt]

/-- C10 witness: a concrete failing-read event on an established socket
tunnel yields return value 0 and tears the tunnel down. -/
theorem tunnel_event_absorbs_handler_errors_witness :
    (tunnel_event_sock 3 c5CexIn).ret = 0
    ∧ (tunnel_event_sock 3 c5CexIn).closedSelf = true :=
  tunnel_event_absorbs_handler_errors.2 3 c5CexIn rfl rfl (by decide)

/-- C5 counterexample: an established socket tunnel whose `FD_READ`
handler fails mid-stream (`net_read` error) is torn down with no
record written to the channel for it: neither an answer nor a close
record precedes its destruction. -/
theorem midstream_failure_silent_teardown_cex :
    (tunnel_event_sock 7 c5CexIn).closedSelf = true
    ∧ (tunnel_event_sock 7 c5CexIn).records = []
    ∧ (tunnel_event_sock 7 c5CexIn).ret = 0 := by
  decide

/-- C5 (amended): a per-tunnel handler failure never affects another
tunnel — only the event's own tunnel is ever removed; a connect
failure is reported with a one-byte connect answer before the tunnel
is destroyed and a peer close emits a close record; but a mid-stream
receive (or send) failure tears the offending tunnel down silently,
emitting no record for it. -/
theorem per_tunnel_failure_containment :
    (∀ (reg : List Nat) selfId e j, j ∈ reg → j ≠ selfId →
        j ∈ applyOutcome reg selfId (tunnel_event_sock selfId e))
    ∧ (∀ selfId e, e.enumOk = true → e.fdAccept = false → e.fdConnect = false →
        e.fdWrite = false → e.fdRead = true → e.readOk2 = false → e.fdClose = false →
        tunnel_event_sock selfId e = { ret := 0, records := [], closedSelf := true })
    ∧ (∀ selfId e, e.enumOk = true → e.fdClose = true → e.closeChanOk = true →
        ∃ pre, (tunnel_event_sock selfId e).records = pre ++ [ChanRec.closeRec selfId]
          ∧ (tunnel_event_sock selfId e).closedSelf = true)
    ∧ (∀ selfId e, e.enumOk = true → e.fdAccept = false → e.fdConnect = true →
        e.connectErrCode ≠ 0 → e.connChanOk = true → e.fdClose = false →
        (tunnel_event_sock selfId e).closedSelf = true
        ∧ (tunnel_event_sock selfId e).records
            = [ChanRec.conn selfId [wsa_to_r2t_error e.connectErrCode]]) := by
  refine ⟨?_, ?_, ?_, ?_⟩
  · intro reg selfId e j hj hne
    unfold applyOutcome
    split_ifs
    · exact List.mem_erase_of_ne hne |>.2 hj
    · exact hj
  · intro selfId e he ha hcn hw hr hro hc
    unfold tunnel_event_sock tunnel_event_core tunnel_event_dispatch
      tunnel_sockrecv_event_model
    simp [he, ha, hcn, hw, hr, hro, hc]
  · intro selfId e he hc hcc
    unfold tunnel_event_sock
    simp only [he, hc, hcc, Bool.true_eq_false, if_false, if_true]
    refine ⟨(tunnel_event_core selfId e).records, ?_, ?_⟩ <;>
      simp [tunnel_close_event_model]
  · intro selfId e he ha hcn herr hcw hc
    have hans : tunnel_connect_event_ans e.connectErrCode e.watchOk e.wio e.sendOk1 e.selfAddr
        = [wsa_to_r2t_error e.connectErrCode] := by
      unfold tunnel_connect_event_ans
      rw [if_neg herr]
    have hret : (tunnel_connect_event_model selfId e.connectErrCode e.watchOk e.wio
        e.sendOk1 e.selfAddr e.connChanOk).ret = -1 := by
      unfold tunnel_connect_event_model
      simp only [hans]
      rw [if_neg]
      intro hcon
      have : wsa_to_r2t_error e.connectErrCode = R2TERR_SUCCESS := by
        simpa using hcon.2
      exact wsa_to_r2t_error_ne_zero _ this
    have hrecs : (tunnel_connect_event_model selfId e.connectErrCode e.watchOk e.wio
        e.sendOk1 e.selfAddr e.connChanOk).records
        = [ChanRec.conn selfId [wsa_to_r2t_error e.connectErrCode]] := by
      unfold tunnel_connect_event_model
      simp only [hans, hcw, if_true]
    have hdisp : tunnel_event_dispatch selfId e
        = { ret := -1,
            records := [ChanRec.conn selfId [wsa_to_r2t_error e.connectErrCode]],
            closedSelf := false } := by
      unfold tunnel_event_dispatch
      simp only [ha, hcn, Bool.false_eq_true, if_false, if_true]
      rw [if_neg (by rw [hret]; decide)]
      rw [hret, hrecs]
    have hcore : tunnel_event_core selfId e
        = { ret := -1,
            records := [ChanRec.conn selfId [wsa_to_r2t_error e.connectErrCode]],
            closedSelf := false } := by
      unfold tunnel_event_core
      rw [hdisp]
      rw [if_neg]
      intro hcon
      have := hcon.1
      simp at this
    unfold tunnel_event_sock
    simp only [he, hc, Bool.true_eq_false, if_false]
    rw [hcore]
    simp

/-- C5 witness: the containment part applied to the concrete failing-read
event: a foreign id 9 in the registry survives the teardown of
tunnel 7. -/
theorem per_tunnel_failure_containment_witness :
    (9 : Nat) ∈ applyOutcome [9, 7] 7 (tunnel_event_sock 7 c5CexIn) :=
  per_tunnel_failure_containment.1 [9, 7] 7 c5CexIn 9 (by decide) (by decide)

/-- C6 witness: with registry {0} and `last_tid` 0xff the scan order is
0, 1, 2, …; id 0 is taken, so the first free scanned candidate 1 is
returned and becomes the new `last_tid`. -/
theorem tunnel_generate_id_scan_order_witness :
    tunnel_generate_id [0] 255 = (1, 1) :=
  (tunnel_generate_id_scan_order [0] 255).1 1 (by decide)
